import Mathlib

/-!
# Verification of the anomaly detection-and-scoring engine

Shallow embedding of the core of the MahaDevs backend: the anomaly
controller (`checkAnomalies`, `resolveAnomaly`), the geofence controller
(`checkGeofence`), and the safety-score ledger (`updateSafetyScore`).

Modelling conventions:
* JS numbers are embedded as `ℚ` (scores, deltas, coordinates); JS division
  on the values that occur here is exact, so rational division is faithful.
* The storage collaborator is a record of lists (`DB`).  The client's
  `.single()` modifier returns the row when the filter matches exactly one
  row and an error otherwise (in particular on zero rows); this is mirrored
  by `singleRow`.  Transient storage failures are injected through explicit
  boolean parameters where a claim depends on them (the ledger); elsewhere
  storage operations are modelled as available.
* JSON object metadata is an association list `List (String × String)`;
  object spread `{...m, k: v}` is `setKey`, and serialisation dropping
  `undefined` values is reflected in `mergeResolutionNotes`.
* The haversine distance is transcendental, so the controllers take the
  distance function as an explicit oracle parameter `dist`; every theorem
  below is either universally quantified over `dist` or instantiates it
  concretely.  The four signal detectors live in a module that only the
  controller imports; no claim depends on their internals, so
  `checkAnomalies` takes them as a `Detectors` bundle and the theorems
  quantify over it.
-/

namespace MahaDevs

/-- JS metadata object: association list of string keys and values. -/
abbrev Metadata := List (String × String)

/-- First-match lookup in a metadata object. -/
def lookupKey : Metadata → String → Option String
  | [], _ => none
  | (k', v) :: rest, k => if k' == k then some v else lookupKey rest k

/-- JS object spread `{...m, k: v}`: replace the value at `k` in place if the
key is present, otherwise append the pair at the end. -/
def setKey (m : Metadata) (k v : String) : Metadata :=
  if m.any (fun p => p.1 == k) then
    m.map (fun p => if p.1 == k then (k, v) else p)
  else
    m ++ [(k, v)]

/-- `clamp(x, 0, 100)` as computed by `Math.max(0, Math.min(100, x))`. -/
def clampScore (x : ℚ) : ℚ := max 0 (min 100 x)

/-- A row of the `locations` collection. -/
structure LocationPing where
  dtid : String
  latitude : ℚ
  longitude : ℚ
  altitude : Option ℚ
  timestamp : Nat
deriving Repr, DecidableEq

/-- A row of the `itineraries` collection. -/
structure ItineraryWaypoint where
  dtid : String
  latitude : ℚ
  longitude : ℚ
  radius : Option ℚ
deriving Repr, DecidableEq

/-- A row of the `restricted_zones` collection.  The active flag may live
under either of two historical column names; a missing column is `none`. -/
structure Zone where
  id : Nat
  name : String
  latitude : ℚ
  longitude : ℚ
  radius_meters : ℚ
  risk_level : String
  zone_type : String
  is_active : Option Bool
  active : Option Bool
deriving Repr, DecidableEq

/-- A row of the `anomalies` collection. -/
structure Anomaly where
  id : Nat
  dtid : String
  anomaly_type : String
  severity : String
  description : String
  latitude : ℚ
  longitude : ℚ
  metadata : Metadata
  status : String
  detected_at : Nat
  resolved_at : Option Nat
deriving Repr, DecidableEq

/-- A row of the append-only `safety_score_events` collection. -/
structure ScoreEvent where
  dtid : String
  delta : ℚ
  reason : String
  resulting_score : ℚ
deriving Repr, DecidableEq

/-- A row of the `tourist_profiles` collection; a SQL `NULL` score is
`none`. -/
structure Profile where
  dtid : String
  safety_score : Option ℚ
deriving Repr, DecidableEq

/-- The persisted state the engine reads and writes.  `nextAnomalyId` models
the store-assigned primary key of the `anomalies` collection. -/
structure DB where
  locations : List LocationPing
  itineraries : List ItineraryWaypoint
  zones : List Zone
  anomalies : List Anomaly
  profiles : List Profile
  events : List ScoreEvent
  nextAnomalyId : Nat
deriving Repr, DecidableEq

/-- The storage client's `.single()` modifier: `(data, error?)`.  The data is
the row when the filtered result holds exactly one row; otherwise the call
reports an error (also on zero rows) and the data is null. -/
def singleRow {α : Type} (rows : List α) : Option α × Bool :=
  match rows with
  | [r] => (some r, false)
  | _ => (none, true)

/-- Result of the ledger's entry point: the resulting score on success, or a
caught error message. -/
inductive LedgerResult where
  | success (safety_score : ℚ)
  | failure (error : String)
deriving Repr, DecidableEq

/-- `true` exactly on the `failure` constructor. -/
def LedgerResult.isFailure : LedgerResult → Bool
  | .success _ => false
  | .failure _ => true

/-- `updateSafetyScore(dtid, delta, reason)` from `services/hashService.js`
(lines 15–42).  `fetchFail`, `updateFail`, `insertFail` inject transient
storage failures of the three storage operations in source order: the
profile read (`.single()`), the profile update, and the event insert.  The
source checks the errors of the first two and throws (caught and returned
as a failure result); the error of the event insert is never read. -/
def updateSafetyScore (db : DB) (fetchFail updateFail insertFail : Bool)
    (dtid : String) (delta : ℚ) (reason : String) : LedgerResult × DB :=
  let fetched := singleRow (db.profiles.filter (fun p => p.dtid == dtid))
  if fetchFail || fetched.2 then
    (.failure "profile fetch failed", db)
  else
    let currentScore := (fetched.1.bind Profile.safety_score).getD 100
    let newScore := clampScore (currentScore + delta)
    if updateFail then
      (.failure "profile update failed", db)
    else
      let db1 := { db with
        profiles := db.profiles.map (fun p =>
          if p.dtid == dtid then { p with safety_score := some newScore } else p) }
      let db2 :=
        if insertFail then db1
        else { db1 with events := db1.events ++ [⟨dtid, delta, reason, newScore⟩] }
      (.success newScore, db2)

/-- `getSeverityScore(severity)` from the anomaly controller (lines
242–250): fixed table with `|| -10` fallback (all table values are truthy,
so the fallback fires exactly on unrecognized severities). -/
def getSeverityScore (severity : String) : ℚ :=
  if severity == "low" then -5
  else if severity == "medium" then -10
  else if severity == "high" then -20
  else if severity == "critical" then -30
  else -10

/-! ## Geofence controller (`geofenceController`, `checkGeofence`) -/

/-- Risk-level rank table `{ low: 1, medium: 2, high: 3, critical: 4 }`;
an unknown key yields JS `undefined`, modelled as `none`. -/
def riskOrder (s : String) : Option Nat :=
  if s == "low" then some 1
  else if s == "medium" then some 2
  else if s == "high" then some 3
  else if s == "critical" then some 4
  else none

/-- Rank of a zone's risk level, defaulting unknown levels to `0`.  Under
the validity hypotheses of the theorems below this equals `riskOrder`. -/
def rankOf (z : Zone) : Nat := (riskOrder z.risk_level).getD 0

/-- Body of the `reduce` that picks the highest-risk zone:
`riskOrder[current] > riskOrder[prev] ? current : prev`.  A comparison
against `undefined` is false in JS, so `prev` is kept. -/
def higherRisk (prev current : Zone) : Zone :=
  match riskOrder current.risk_level, riskOrder prev.risk_level with
  | some rc, some rp => if rp < rc then current else prev
  | _, _ => prev

/-- `breachedZones.reduce(...)`: fold `higherRisk` over the tail with the
head as the initial accumulator. -/
def highestRiskZone (z : Zone) (zs : List Zone) : Zone := zs.foldl higherRisk z

/-- `Math.max(...breachedZones.map(rank))`: `none` models the `NaN` that an
unknown risk level would produce.  The source only evaluates this on a
non-empty list of ranks, all `≥ 1` when valid, so folding from `0` agrees
with `Math.max`. -/
def maxRiskRank (zs : List Zone) : Option Nat :=
  zs.foldl
    (fun acc z =>
      match acc, riskOrder z.risk_level with
      | some a, some r => some (max a r)
      | _, _ => none)
    (some 0)

/-- Active-zone filter: honour `is_active` if the column is present, else
`active` if present, else default to active. -/
def zoneActive (z : Zone) : Bool :=
  match z.is_active with
  | some b => b
  | none =>
    match z.active with
    | some b => b
    | none => true

/-- Insert into a sorted list, keeping earlier elements first on ties. -/
def insertLe {α : Type} (le : α → α → Bool) (x : α) : List α → List α
  | [] => [x]
  | y :: ys => if le x y then x :: y :: ys else y :: insertLe le x ys

/-- Structural sort by a boolean `≤`-style comparison, modelling the sorted
results of the storage's `order(...)` and of JS `Array.sort` with a
numeric comparator. -/
def sortByLe {α : Type} (le : α → α → Bool) : List α → List α
  | [] => []
  | x :: xs => insertLe le x (sortByLe le xs)

/-- `isInsideGeofence`: distance from the position to the zone center is at
most the zone radius.  `dist` is the haversine oracle. -/
def isInsideGeofence (dist : ℚ → ℚ → ℚ → ℚ → ℚ)
    (clat clon zlat zlon radius : ℚ) : Bool :=
  decide (dist clat clon zlat zlon ≤ radius)

/-- `findNearestZones`: zones annotated with their distance, filtered to the
proximity window and sorted ascending by distance. -/
def findNearestZones (dist : ℚ → ℚ → ℚ → ℚ → ℚ) (clat clon : ℚ)
    (zones : List Zone) (within : ℚ) : List (Zone × ℚ) :=
  sortByLe (fun a b => decide (a.2 ≤ b.2))
    ((zones.map (fun z => (z, dist clat clon z.latitude z.longitude))).filter
      (fun p => decide (p.2 ≤ within)))

/-- Body of `POST /geofence/check`: `{dtid, currentLat, currentLong}` with
absent fields as `none`. -/
structure GeofenceReq where
  dtid : String
  currentLat : Option ℚ
  currentLong : Option ℚ
deriving Repr, DecidableEq

/-- JS falsiness of a string field: absent is modelled as `""`, which is
falsy anyway. -/
def falsyStr (s : String) : Bool := s == ""

/-- JS falsiness of a numeric field: `undefined` and `0` are falsy. -/
def falsyNum : Option ℚ → Bool
  | none => true
  | some v => v == 0

/-- The `data` object of a successful geofence response.  `nearby_zones`
entries are zones annotated with their computed distance; `risk_level`
is `none` when the JS computation would be `NaN`. -/
structure GeofenceData where
  inside : Bool
  breached_zones : List Zone
  nearby_zones : List (Zone × ℚ)
  risk_level : Option Nat
deriving Repr, DecidableEq

/-- HTTP response of the geofence check. -/
structure GeofenceResp where
  status : Nat
  success : Bool
  message : Option String
  data : Option GeofenceData
deriving Repr, DecidableEq

/-- The active zones the controller evaluates. -/
def activeZonesOf (db : DB) : List Zone := db.zones.filter zoneActive

/-- The breach set: active zones whose center is within their radius of the
position. -/
def breachedZonesOf (dist : ℚ → ℚ → ℚ → ℚ → ℚ) (db : DB) (clat clon : ℚ) :
    List Zone :=
  (activeZonesOf db).filter
    (fun z => isInsideGeofence dist clat clon z.latitude z.longitude z.radius_meters)

/-- The dominant zone of a non-empty breach set, per the source's `reduce`. -/
def dominantZoneOf (dist : ℚ → ℚ → ℚ → ℚ → ℚ) (db : DB) (clat clon : ℚ) :
    Option Zone :=
  match breachedZonesOf dist db clat clon with
  | [] => none
  | z :: rest => some (highestRiskZone z rest)

/-- `checkGeofence` from the geofence controller (part_002 lines 33–121).
Validation rejects any falsy field; on a non-empty breach set an anomaly
record is inserted unconditionally, the score is deducted by
`critical ? -30 : -20`, and the ledger result is ignored. -/
def checkGeofence (dist : ℚ → ℚ → ℚ → ℚ → ℚ) (now : Nat) (db : DB)
    (req : GeofenceReq) : GeofenceResp × DB :=
  if falsyStr req.dtid || falsyNum req.currentLat || falsyNum req.currentLong then
    ({ status := 400, success := false,
       message := some "Required fields: dtid, currentLat, currentLong",
       data := none }, db)
  else
    let clat := req.currentLat.getD 0
    let clon := req.currentLong.getD 0
    let zones := activeZonesOf db
    let breached := breachedZonesOf dist db clat clon
    let nearby :=
      (findNearestZones dist clat clon zones 10000).filter
        (fun p => !(breached.any (fun b => b.id == p.1.id)))
    match breached with
    | [] =>
      ({ status := 200, success := true, message := none,
         data := some
           { inside := false, breached_zones := breached,
             nearby_zones := nearby.take 5, risk_level := some 0 } }, db)
    | z :: rest =>
      let dom := highestRiskZone z rest
      let newAnomaly : Anomaly :=
        { id := db.nextAnomalyId, dtid := req.dtid,
          anomaly_type := "geofence_breach", severity := dom.risk_level,
          description := "Entered restricted zone: " ++ dom.name,
          latitude := clat, longitude := clon,
          metadata := [("zone_id", toString dom.id), ("zone_name", dom.name),
                       ("zone_type", dom.zone_type)],
          status := "active", detected_at := now, resolved_at := none }
      let db1 := { db with anomalies := db.anomalies ++ [newAnomaly],
                           nextAnomalyId := db.nextAnomalyId + 1 }
      let scoreDeduction : ℚ := if dom.risk_level == "critical" then -30 else -20
      let db2 :=
        (updateSafetyScore db1 false false false req.dtid scoreDeduction
          "geofence_breach").2
      ({ status := 200, success := true, message := none,
         data := some
           { inside := true, breached_zones := breached,
             nearby_zones := nearby.take 5,
             risk_level := maxRiskRank breached } }, db2)

/-! ## Anomaly controller (`anomalyController`) -/

/-- Body of `PUT /anomalies/{anomalyId}/resolve`; a missing `status` falls
back to `"resolved"` via the destructuring default. -/
structure ResolveReq where
  status : Option String
  notes : Option String
deriving Repr, DecidableEq

/-- HTTP response of the resolve endpoint. -/
structure ResolveResp where
  status : Nat
  success : Bool
  message : Option String
  data : Option Anomaly
deriving Repr, DecidableEq

/-- `{ ...currentAnomaly.metadata, resolution_notes: notes }` as it reaches
storage.  With `notes` present the key is set (overwriting an existing
`resolution_notes` entry in place); with `notes` absent the spread leaves
the key holding `undefined`, which JSON serialisation drops, removing any
prior `resolution_notes` entry. -/
def mergeResolutionNotes (meta : Metadata) (notes : Option String) : Metadata :=
  match notes with
  | some v => setKey meta "resolution_notes" v
  | none => meta.filter (fun p => !(p.1 == "resolution_notes"))

/-- `resolveAnomaly` from the anomaly controller (part_001 lines 145–208).
The fetch of the current anomaly uses `.single()`, which errors when the id
matches no row; the thrown error is caught and answered with status 500, so
the explicit 404 branch below is only reachable if the fetch could succeed
with null data. -/
def resolveAnomaly (now : Nat) (db : DB) (anomalyId : Nat) (req : ResolveReq) :
    ResolveResp × DB :=
  let status := req.status.getD "resolved"
  if !(status == "resolved" || status == "false_positive") then
    ({ status := 400, success := false,
       message := some "Status must be either \x22resolved\x22 or \x22false_positive\x22",
       data := none }, db)
  else
    let fetched := singleRow (db.anomalies.filter (fun a => a.id == anomalyId))
    if fetched.2 then
      ({ status := 500, success := false,
         message := some "Failed to resolve anomaly", data := none }, db)
    else
      match fetched.1 with
      | none =>
        ({ status := 404, success := false, message := some "Anomaly not found",
           data := none }, db)
      | some current =>
        let updatedRows := db.anomalies.map (fun a =>
          if a.id == anomalyId then
            { a with status := status, resolved_at := some now,
                     metadata := mergeResolutionNotes current.metadata req.notes }
          else a)
        let upd := singleRow (updatedRows.filter (fun a => a.id == anomalyId))
        match upd.1 with
        | none =>
          ({ status := 500, success := false,
             message := some "Failed to resolve anomaly", data := none }, db)
        | some anomaly =>
          let db1 := { db with anomalies := updatedRows }
          let db2 :=
            if status == "resolved" then
              (updateSafetyScore db1 false false false anomaly.dtid
                (getSeverityScore anomaly.severity / (-2)) "anomaly_resolved").2
            else db1
          ({ status := 200, success := true,
             message := some ("Anomaly marked as " ++ status),
             data := some anomaly }, db2)

/-- A detector's output: either no anomaly or `{type, severity, details}`. -/
structure Signal where
  isAnomaly : Bool
  type : String
  severity : String
  details : Metadata
deriving Repr, DecidableEq

/-- The detector bundle from `utils/anomalyDetection` and
`utils/geofencing` that the anomaly controller imports.  No claim below
depends on detector internals, so they are parameters of the pass. -/
structure Detectors where
  detectInactivity : Nat → Signal
  detectRouteDeviation : ℚ → ℚ → List ItineraryWaypoint → Signal
  detectAltitudeDrop : List LocationPing → Signal
  detectSpeedAnomaly : List LocationPing → Signal
  checkGeofenceBreach : ℚ → ℚ → Signal

/-- JS `type.replace('_', ' ')` replaces only the first occurrence. -/
def replaceFirstUnderscore : List Char → List Char
  | [] => []
  | c :: cs => if c = '_' then ' ' :: cs else c :: replaceFirstUnderscore cs

/-- Description of a freshly stored anomaly:
`` `${type.replace('_', ' ')} detected` ``. -/
def descriptionOf (ty : String) : String :=
  ⟨replaceFirstUnderscore ty.data⟩ ++ " detected"

/-- The recent-location window: the subject's pings ordered by timestamp
descending, limited to 10. -/
def recentWindow (db : DB) (dtid : String) : List LocationPing :=
  (sortByLe (fun a b => decide (b.timestamp ≤ a.timestamp))
    (db.locations.filter (fun l => l.dtid == dtid))).take 10

/-- One iteration of the store loop of `checkAnomalies` (part_001 lines
84–114): look up an existing active anomaly of the `(subject, type)` with
`.single()` (null data on zero — or multiple — rows), and only on null data
insert a new record and deduct the severity-mapped score. -/
def storeSignal (now : Nat) (dtid : String) (latest : LocationPing) (db : DB)
    (s : Signal) : DB :=
  if s.isAnomaly then
    let fetched := singleRow (db.anomalies.filter (fun a =>
      a.dtid == dtid && a.anomaly_type == s.type && a.status == "active"))
    match fetched.1 with
    | some _ => db
    | none =>
      let newA : Anomaly :=
        { id := db.nextAnomalyId, dtid := dtid, anomaly_type := s.type,
          severity := s.severity, description := descriptionOf s.type,
          latitude := latest.latitude, longitude := latest.longitude,
          metadata := s.details, status := "active", detected_at := now,
          resolved_at := none }
      let db1 := { db with anomalies := db.anomalies ++ [newA],
                           nextAnomalyId := db.nextAnomalyId + 1 }
      (updateSafetyScore db1 false false false dtid
        (getSeverityScore s.severity) s.type).2
  else db

/-- The `data` object of the detection-pass response.  The `no_data` branch
of the source builds the object without a `detected_now` key, modelled as
`none`. -/
structure AnomalyCheckData where
  anomalies : List Anomaly
  detected_now : Option (List Signal)
  status : String
deriving Repr, DecidableEq

/-- HTTP response of `GET /anomalies/{dtid}`. -/
structure AnomalyCheckResp where
  status : Nat
  success : Bool
  message : Option String
  data : Option AnomalyCheckData
deriving Repr, DecidableEq

/-- `checkAnomalies` from the anomaly controller (part_001 lines 11–143):
fetch the recent window, short-circuit on an empty window, run the
detectors, store the new signals with deduplication, and answer with the
active set. -/
def checkAnomalies (dets : Detectors) (now : Nat) (db : DB) (dtid : String) :
    AnomalyCheckResp × DB :=
  let locations := recentWindow db dtid
  match locations with
  | [] =>
    ({ status := 200, success := true, message := none,
       data := some { anomalies := [], detected_now := none,
                      status := "no_data" } }, db)
  | latest :: _ =>
    let itineraries := db.itineraries.filter (fun i => i.dtid == dtid)
    let inact := dets.detectInactivity latest.timestamp
    let s1 : List Signal := if inact.isAnomaly then [inact] else []
    let s2 :=
      if itineraries.length > 0 then
        let dev := dets.detectRouteDeviation latest.latitude latest.longitude
          itineraries
        if dev.isAnomaly then s1 ++ [dev] else s1
      else s1
    let alt := dets.detectAltitudeDrop locations
    let s3 := if alt.isAnomaly then s2 ++ [alt] else s2
    let sp := dets.detectSpeedAnomaly locations
    let s4 := if sp.isAnomaly then s3 ++ [sp] else s3
    let geo := dets.checkGeofenceBreach latest.latitude latest.longitude
    let signals := if geo.isAnomaly then s4 ++ [geo] else s4
    let db1 := signals.foldl (storeSignal now dtid latest) db
    let activeAnomalies :=
      sortByLe (fun a b => decide (b.detected_at ≤ a.detected_at))
        (db1.anomalies.filter (fun a => a.dtid == dtid && a.status == "active"))
    ({ status := 200, success := true, message := none,
       data := some
         { anomalies := activeAnomalies,
           detected_now := some (signals.filter (fun s => s.isAnomaly)),
           status := if activeAnomalies.length > 0 then "anomalies_detected"
                     else "normal" } }, db1)

/-! ## Concrete objects used to instantiate the theorems -/

/-- A detector output carrying no signal. -/
def noSignal : Signal := { isAnomaly := false, type := "", severity := "", details := [] }

/-- A detector bundle that never reports a signal. -/
def trivialDets : Detectors where
  detectInactivity := fun _ => noSignal
  detectRouteDeviation := fun _ _ _ => noSignal
  detectAltitudeDrop := fun _ => noSignal
  detectSpeedAnomaly := fun _ => noSignal
  checkGeofenceBreach := fun _ _ => noSignal

/-- The empty store. -/
def emptyDB : DB :=
  { locations := [], itineraries := [], zones := [], anomalies := [],
    profiles := [], events := [], nextAnomalyId := 1 }

/-- A distance oracle that reports distance `0` everywhere, putting every
position inside every zone. -/
def zeroDist : ℚ → ℚ → ℚ → ℚ → ℚ := fun _ _ _ _ => 0

/-! ## Basic lemmas -/

/-- The clamp never goes below `0`. -/
theorem clampScore_nonneg (x : ℚ) : 0 ≤ clampScore x := le_max_left 0 _

/-- The clamp never exceeds `100`. -/
theorem clampScore_le_100 (x : ℚ) : clampScore x ≤ 100 :=
  max_le (by norm_num) (min_le_left _ _)

/-- The severity table only produces negative deductions. -/
theorem getSeverityScore_neg (s : String) : getSeverityScore s < 0 := by
  unfold getSeverityScore
  split_ifs <;> norm_num

/-- `.single()` errors exactly when the filtered result is not one row. -/
theorem singleRow_err_iff {α : Type} (rows : List α) :
    (singleRow rows).2 = true ↔ rows.length ≠ 1 := by
  match rows with
  | [] => simp [singleRow]
  | [r] => simp [singleRow]
  | a :: b :: t => simp [singleRow]

/-- The ledger never touches the `anomalies` collection. -/
theorem updateSafetyScore_anomalies (db : DB) (ff uf inf : Bool)
    (dtid : String) (δ : ℚ) (r : String) :
    (updateSafetyScore db ff uf inf dtid δ r).2.anomalies = db.anomalies := by
  unfold updateSafetyScore
  dsimp only
  split
  · rfl
  · split
    · rfl
    · split <;> rfl

/-- The ledger never touches the `zones` collection. -/
theorem updateSafetyScore_zones (db : DB) (ff uf inf : Bool)
    (dtid : String) (δ : ℚ) (r : String) :
    (updateSafetyScore db ff uf inf dtid δ r).2.zones = db.zones := by
  unfold updateSafetyScore
  dsimp only
  split
  · rfl
  · split
    · rfl
    · split <;> rfl

/-! ## C2 — the ledger's per-call contract -/

/-- C2 (amended): when the subject has a unique profile row and storage is
available, `updateSafetyScore` succeeds with `clamp(previousScore + delta,
0, 100)` — where the previous score is the stored score, or `100` when the
stored score is null — the resulting score lies in `[0, 100]`, the profile
is updated to it, and exactly one event recording the delta, reason and
resulting score is appended. -/
theorem updateSafetyScore_with_profile (db : DB) (dtid : String) (δ : ℚ)
    (r : String) (p : Profile)
    (hp : db.profiles.filter (fun q => q.dtid == dtid) = [p]) :
    updateSafetyScore db false false false dtid δ r =
      (.success (clampScore (p.safety_score.getD 100 + δ)),
       { db with
         profiles := db.profiles.map (fun q =>
           if q.dtid == dtid then
             { q with safety_score := some (clampScore (p.safety_score.getD 100 + δ)) }
           else q),
         events := db.events ++
           [⟨dtid, δ, r, clampScore (p.safety_score.getD 100 + δ)⟩] }) ∧
    0 ≤ clampScore (p.safety_score.getD 100 + δ) ∧
    clampScore (p.safety_score.getD 100 + δ) ≤ 100 := by
  refine ⟨?_, clampScore_nonneg _, clampScore_le_100 _⟩
  unfold updateSafetyScore
  rw [hp]
  rfl

/-- Witness for C2's amended theorem at a concrete input: a profile at
score 95 and a delta of −10 yield 85, recorded in one appended event. -/
theorem updateSafetyScore_with_profile_witness :
    ({ emptyDB with profiles := [⟨"t1", some 95⟩] } : DB).profiles.filter
        (fun q => q.dtid == "t1") = [⟨"t1", some 95⟩] ∧
    updateSafetyScore { emptyDB with profiles := [⟨"t1", some 95⟩] }
        false false false "t1" (-10) "speed_anomaly" =
      (.success 85,
       { emptyDB with profiles := [⟨"t1", some 85⟩],
                      events := [⟨"t1", -10, "speed_anomaly", 85⟩] }) := by
  constructor
  · decide
  · have h := (updateSafetyScore_with_profile
      { emptyDB with profiles := [⟨"t1", some 95⟩] } "t1" (-10) "speed_anomaly"
      ⟨"t1", some 95⟩ (by decide)).1
    rw [h]
    norm_num [clampScore, emptyDB]

/-- C2 counterexample: for a subject with no profile row the claimed
default of 100 does not apply — the profile read's `.single()` errors, the
error is thrown, and the call fails with no event appended, instead of
succeeding with `clamp(100 + delta, 0, 100) = 90`. -/
theorem updateSafetyScore_no_profile_fails :
    updateSafetyScore emptyDB false false false "t1" (-10) "geofence_breach" =
      (.failure "profile fetch failed", emptyDB) ∧
    (updateSafetyScore emptyDB false false false "t1" (-10) "geofence_breach").1 ≠
      .success (clampScore (100 + (-10))) ∧
    (updateSafetyScore emptyDB false false false "t1" (-10) "geofence_breach").2.events
      = [] := by
  refine ⟨by decide, ?_, by decide⟩
  intro h
  have hc : clampScore (100 + (-10)) = 90 := by norm_num [clampScore]
  rw [hc] at h
  exact absurd h (by decide)

/-! ## C6 — ledger failure reporting -/

/-- C6 (amended): the ledger reports failure exactly when the profile fetch
fails (including when the subject lacks a unique profile row) or the
profile update fails; a failure of the event-log insert is swallowed — the
call still reports success with the resulting score while no event is
recorded, so the caller cannot distinguish that storage failure. -/
theorem updateSafetyScore_failure_characterisation (db : DB) (ff uf inf : Bool)
    (dtid : String) (δ : ℚ) (r : String) :
    ((updateSafetyScore db ff uf inf dtid δ r).1.isFailure = true ↔
      (ff = true ∨ (db.profiles.filter (fun q => q.dtid == dtid)).length ≠ 1 ∨
        uf = true)) ∧
    (∀ p, db.profiles.filter (fun q => q.dtid == dtid) = [p] → ff = false →
      uf = false → inf = true →
      (updateSafetyScore db ff uf inf dtid δ r).1 =
        .success (clampScore (p.safety_score.getD 100 + δ)) ∧
      (updateSafetyScore db ff uf inf dtid δ r).2.events = db.events) := by
  constructor
  · unfold updateSafetyScore
    rcases hf : (singleRow (db.profiles.filter (fun q => q.dtid == dtid))).2 with _ | _
    · have hlen : ¬ (db.profiles.filter (fun q => q.dtid == dtid)).length ≠ 1 := by
        intro hl
        rw [← singleRow_err_iff] at hl
        simp [hf] at hl
      cases ff
      · simp only [hf, Bool.or_false, Bool.false_eq_true, if_false]
        cases uf
        · simp [LedgerResult.isFailure, hlen]
        · simp [LedgerResult.isFailure]
      · simp [LedgerResult.isFailure]
    · have hlen : (db.profiles.filter (fun q => q.dtid == dtid)).length ≠ 1 := by
        rw [← singleRow_err_iff]
        exact hf
      simp [hf, LedgerResult.isFailure, hlen]
  · intro p hp hff huf hinf
    subst hff huf hinf
    unfold updateSafetyScore
    rw [hp]
    exact ⟨rfl, rfl⟩

/-- Witness for C6's amended theorem at a concrete input: with a profile at
100 and a failing event insert, the call still reports success 90 and the
event log is unchanged. -/
theorem updateSafetyScore_failure_characterisation_witness :
    ¬ (updateSafetyScore { emptyDB with profiles := [⟨"t1", some 100⟩] }
        false false true "t1" (-10) "r").1.isFailure = true ∧
    (updateSafetyScore { emptyDB with profiles := [⟨"t1", some 100⟩] }
        false false true "t1" (-10) "r").1 = .success 90 ∧
    (updateSafetyScore { emptyDB with profiles := [⟨"t1", some 100⟩] }
        false false true "t1" (-10) "r").2.events = [] := by
  have h := updateSafetyScore_failure_characterisation
    { emptyDB with profiles := [⟨"t1", some 100⟩] } false false true "t1" (-10) "r"
  have h2 := h.2 ⟨"t1", some 100⟩ (by decide) rfl rfl rfl
  refine ⟨?_, ?_, ?_⟩
  · rw [h2.1]
    simp [LedgerResult.isFailure]
  · rw [h2.1]
    norm_num [clampScore]
  · rw [h2.2]
    rfl

/-- C6 counterexample: a failing event-log insert is an underlying storage
failure, yet the call reports success — refuting “fails if and only if an
underlying storage operation fails”. -/
theorem updateSafetyScore_swallows_insert_failure :
    (updateSafetyScore { emptyDB with profiles := [⟨"t1", some 100⟩] }
        false false true "t1" (-10) "geofence_breach").1 = .success 90 ∧
    (updateSafetyScore { emptyDB with profiles := [⟨"t1", some 100⟩] }
        false false true "t1" (-10) "geofence_breach").2.events = [] := by
  constructor
  · norm_num [updateSafetyScore, singleRow, clampScore, emptyDB]
  · norm_num [updateSafetyScore, singleRow, emptyDB]

/-! ## C10 — zero coordinates rejected as missing -/

/-- C10: a geofence-check request whose `currentLat` or `currentLong` is
exactly `0` is rejected with the 400 missing-required-fields response and
the store is untouched: no zone is evaluated, no anomaly is created, and no
score changes, because the falsy-presence check treats `0` as absent. -/
theorem checkGeofence_zero_coordinate_rejected (dist : ℚ → ℚ → ℚ → ℚ → ℚ)
    (now : Nat) (db : DB) (req : GeofenceReq)
    (h : req.currentLat = some 0 ∨ req.currentLong = some 0) :
    checkGeofence dist now db req =
      ({ status := 400, success := false,
         message := some "Required fields: dtid, currentLat, currentLong",
         data := none }, db) := by
  unfold checkGeofence
  rcases h with h | h <;> simp [h, falsyNum]

/-- Witness for C10 at a concrete input: latitude exactly `0` on the
equator with a well-formed subject id and longitude. -/
theorem checkGeofence_zero_coordinate_rejected_witness :
    (GeofenceReq.mk "t1" (some 0) (some 77)).currentLat = some 0 ∧
    checkGeofence zeroDist 3 emptyDB (GeofenceReq.mk "t1" (some 0) (some 77)) =
      ({ status := 400, success := false,
         message := some "Required fields: dtid, currentLat, currentLong",
         data := none }, emptyDB) :=
  ⟨rfl, checkGeofence_zero_coordinate_rejected zeroDist 3 emptyDB
    (GeofenceReq.mk "t1" (some 0) (some 77)) (Or.inl rfl)⟩

/-! ## Metadata lookup lemmas -/

/-- Lookup across append falls through to the right list. -/
theorem lookupKey_append (m m' : Metadata) (k : String) :
    lookupKey (m ++ m') k =
      match lookupKey m k with
      | some v => some v
      | none => lookupKey m' k := by
  induction m with
  | nil => rfl
  | cons hd tl ih =>
    obtain ⟨k₁, v₁⟩ := hd
    by_cases h : k₁ = k
    · subst h
      simp [lookupKey]
    · simp [lookupKey, h, ih]

/-- If no key matches, lookup gives nothing. -/
theorem lookupKey_eq_none_of_not_any (m : Metadata) (k : String)
    (h : m.any (fun p => p.1 == k) = false) : lookupKey m k = none := by
  induction m with
  | nil => rfl
  | cons hd tl ih =>
    obtain ⟨k₁, v₁⟩ := hd
    rw [List.any_cons, Bool.or_eq_false_iff] at h
    have h1 : ¬ k₁ = k := by simpa using h.1
    simp [lookupKey, h1, ih h.2]

/-- Replacing the value at `k` in place makes lookup at `k` find it, when
some pair holds the key. -/
theorem lookupKey_map_set (m : Metadata) (k v : String) :
    lookupKey (m.map (fun p => if p.1 == k then (k, v) else p)) k =
      if m.any (fun p => p.1 == k) then some v else none := by
  induction m with
  | nil => rfl
  | cons hd tl ih =>
    obtain ⟨k₁, v₁⟩ := hd
    by_cases h : k₁ = k
    · subst h
      rw [List.map_cons, List.any_cons]
      dsimp only
      rw [beq_self_eq_true]
      simp [lookupKey]
    · have hb : (k₁ == k) = false := by simpa using h
      rw [List.map_cons, List.any_cons]
      dsimp only
      rw [hb, if_neg (by simp), Bool.false_or]
      rw [show lookupKey ((k₁, v₁) ::
          List.map (fun p => if p.1 == k then (k, v) else p) tl) k =
        if k₁ == k then some v₁
        else lookupKey (List.map (fun p => if p.1 == k then (k, v) else p) tl) k
        from rfl]
      rw [hb, if_neg (by simp)]
      exact ih

/-- Replacing the value at `k` does not disturb lookup at other keys. -/
theorem lookupKey_map_set_ne (m : Metadata) (k v k' : String) (hne : k' ≠ k) :
    lookupKey (m.map (fun p => if p.1 == k then (k, v) else p)) k' =
      lookupKey m k' := by
  have hkk' : (k == k') = false := by
    simp only [beq_eq_false_iff_ne, ne_eq]
    exact fun e => hne e.symm
  induction m with
  | nil => rfl
  | cons hd tl ih =>
    obtain ⟨k₁, v₁⟩ := hd
    by_cases h : k₁ = k
    · subst h
      rw [List.map_cons]
      dsimp only
      rw [beq_self_eq_true, if_pos rfl]
      rw [show lookupKey ((k₁, v) ::
          List.map (fun p => if p.1 == k₁ then (k₁, v) else p) tl) k' =
        if k₁ == k' then some v
        else lookupKey (List.map (fun p => if p.1 == k₁ then (k₁, v) else p) tl) k'
        from rfl]
      rw [show lookupKey ((k₁, v₁) :: tl) k' =
        if k₁ == k' then some v₁ else lookupKey tl k' from rfl]
      rw [hkk', if_neg (by simp), if_neg (by simp)]
      exact ih
    · have hb : (k₁ == k) = false := by simpa using h
      rw [List.map_cons]
      dsimp only
      rw [hb, if_neg (by simp)]
      rw [show lookupKey ((k₁, v₁) ::
          List.map (fun p => if p.1 == k then (k, v) else p) tl) k' =
        if k₁ == k' then some v₁
        else lookupKey (List.map (fun p => if p.1 == k then (k, v) else p) tl) k'
        from rfl]
      rw [show lookupKey ((k₁, v₁) :: tl) k' =
        if k₁ == k' then some v₁ else lookupKey tl k' from rfl]
      rw [ih]

/-- `setKey` makes lookup at the written key find the new value. -/
theorem lookupKey_setKey_same (m : Metadata) (k v : String) :
    lookupKey (setKey m k v) k = some v := by
  unfold setKey
  by_cases h : m.any (fun p => p.1 == k) = true
  · rw [if_pos h, lookupKey_map_set, if_pos h]
  · simp only [Bool.not_eq_true] at h
    rw [if_neg (by simp [h]), lookupKey_append,
      lookupKey_eq_none_of_not_any m k h]
    simp [lookupKey]

/-- `setKey` does not disturb lookup at other keys. -/
theorem lookupKey_setKey_ne (m : Metadata) (k v k' : String) (hne : k' ≠ k) :
    lookupKey (setKey m k v) k' = lookupKey m k' := by
  unfold setKey
  by_cases h : m.any (fun p => p.1 == k) = true
  · rw [if_pos h]
    exact lookupKey_map_set_ne m k v k' hne
  · simp only [Bool.not_eq_true] at h
    rw [if_neg (by simp [h]), lookupKey_append]
    have hkk' : ¬ k = k' := fun e => hne e.symm
    cases hm : lookupKey m k' <;> simp [lookupKey, hkk']

/-! ## Resolve-path helper lemmas -/

/-- Every element that passes a filter whose result is one row equals that
row. -/
theorem eq_of_filter_singleton {α : Type} (l : List α) (p : α → Bool) (a : α)
    (h : l.filter p = [a]) : ∀ x ∈ l, p x = true → x = a := by
  intro x hx hpx
  have hmem : x ∈ l.filter p := List.mem_filter.mpr ⟨hx, hpx⟩
  rw [h] at hmem
  simpa using hmem

/-- A filter whose result is one row certifies that the row passes it. -/
theorem pred_of_filter_singleton {α : Type} (l : List α) (p : α → Bool) (a : α)
    (h : l.filter p = [a]) : p a = true := by
  have hmem : a ∈ l.filter p := by rw [h]; exact List.mem_singleton_self a
  exact (List.mem_filter.mp hmem).2

/-- Filtering by id after an id-preserving per-row update is the update of
the filtered rows. -/
theorem filter_map_update_id (l : List Anomaly) (anomalyId : Nat)
    (g : Anomaly → Anomaly) (hg : ∀ x, (g x).id = x.id) :
    (l.map (fun a => if a.id == anomalyId then g a else a)).filter
        (fun a => a.id == anomalyId) =
      (l.filter (fun a => a.id == anomalyId)).map g := by
  induction l with
  | nil => rfl
  | cons x tl ih =>
    by_cases hx : x.id = anomalyId
    · have hb : (x.id == anomalyId) = true := by simpa using hx
      have hbg : ((g x).id == anomalyId) = true := by rw [hg x]; exact hb
      rw [List.map_cons]
      rw [hb, if_pos rfl, List.filter_cons, List.filter_cons]
      rw [hb, hbg, if_pos rfl, if_pos rfl, List.map_cons, ih]
    · have hb : (x.id == anomalyId) = false := by simpa using hx
      rw [List.map_cons]
      rw [hb, if_neg (by simp), List.filter_cons, List.filter_cons]
      rw [hb, if_neg (by simp), if_neg (by simp), ih]

/-- The record stored by a successful resolution. -/
def resolvedUpdate (now : Nat) (tgt : String) (notes : Option String)
    (a : Anomaly) : Anomaly :=
  { a with status := tgt, resolved_at := some now,
           metadata := mergeResolutionNotes a.metadata notes }

/-- Success path of `resolveAnomaly`: with a valid target status and a
unique matching anomaly row, the endpoint answers 200 with the updated
record, stores the per-row update, and invokes the ledger with the
half-restoring delta exactly when the target is `resolved`. -/
theorem resolveAnomaly_success_eq (now : Nat) (db : DB) (anomalyId : Nat)
    (tgt : String) (notes : Option String) (a : Anomaly)
    (htgt : (tgt == "resolved" || tgt == "false_positive") = true)
    (hfind : db.anomalies.filter (fun x => x.id == anomalyId) = [a]) :
    resolveAnomaly now db anomalyId ⟨some tgt, notes⟩ =
      ({ status := 200, success := true,
         message := some ("Anomaly marked as " ++ tgt),
         data := some (resolvedUpdate now tgt notes a) },
       (fun (db1 : DB) =>
         if tgt == "resolved" then
           (updateSafetyScore db1 false false false a.dtid
             (getSeverityScore a.severity / (-2)) "anomaly_resolved").2
         else db1)
       { db with anomalies := db.anomalies.map (fun x =>
           if x.id == anomalyId then resolvedUpdate now tgt notes a else x) }) := by
  have hcong : db.anomalies.map (fun x =>
      if x.id == anomalyId then
        { x with status := tgt, resolved_at := some now,
                 metadata := mergeResolutionNotes a.metadata notes }
      else x) =
    db.anomalies.map (fun x =>
      if x.id == anomalyId then resolvedUpdate now tgt notes a else x) := by
    apply List.map_congr_left
    intro x hx
    by_cases hid : (x.id == anomalyId) = true
    · have hxa : x = a := eq_of_filter_singleton _ _ _ hfind x hx hid
      subst hxa
      simp [hid, resolvedUpdate]
    · simp only [Bool.not_eq_true] at hid
      simp [hid]
  have hfilter : (db.anomalies.map (fun x =>
      if x.id == anomalyId then
        { x with status := tgt, resolved_at := some now,
                 metadata := mergeResolutionNotes a.metadata notes }
      else x)).filter (fun x => x.id == anomalyId) =
      [resolvedUpdate now tgt notes a] := by
    rw [filter_map_update_id db.anomalies anomalyId
      (fun x => { x with status := tgt, resolved_at := some now, metadata := mergeResolutionNotes a.metadata notes })
      (fun x => rfl), hfind]
    rfl
  unfold resolveAnomaly
  dsimp only [Option.getD]
  rw [htgt]
  simp only [Bool.not_true, Bool.false_eq_true, if_false]
  rw [hfind]
  dsimp only [singleRow]
  rw [if_neg (by simp)]
  rw [hfilter]
  dsimp only [singleRow]
  rw [hcong]
  rfl

/-! ## C4 — resolution restores half the deduction -/

/-- C4: resolving an anomaly as `resolved` invokes the ledger with reason
`anomaly_resolved` and a positive delta equal to half the magnitude of the
severity-mapped deduction (recorded in the appended score event); for
severity `high` that delta is exactly `+10`; resolving as `false_positive`
leaves both the score profile and the event log untouched. -/
theorem resolve_restores_half_deduction (now : Nat) (db : DB) (anomalyId : Nat)
    (notes : Option String) (a : Anomaly) (prof : Profile)
    (hfind : db.anomalies.filter (fun x => x.id == anomalyId) = [a])
    (hprof : db.profiles.filter (fun q => q.dtid == a.dtid) = [prof]) :
    ((resolveAnomaly now db anomalyId ⟨some "resolved", notes⟩).2.events =
        db.events ++ [⟨a.dtid, -(getSeverityScore a.severity) / 2,
          "anomaly_resolved",
          clampScore (prof.safety_score.getD 100 +
            -(getSeverityScore a.severity) / 2)⟩]) ∧
    0 < -(getSeverityScore a.severity) / 2 ∧
    -(getSeverityScore "high") / 2 = 10 ∧
    (resolveAnomaly now db anomalyId ⟨some "false_positive", notes⟩).2.events =
      db.events ∧
    (resolveAnomaly now db anomalyId ⟨some "false_positive", notes⟩).2.profiles =
      db.profiles := by
  have hdiv : getSeverityScore a.severity / (-2) =
      -(getSeverityScore a.severity) / 2 := by ring
  have hres := resolveAnomaly_success_eq now db anomalyId "resolved" notes a
    (by decide) hfind
  have hfp := resolveAnomaly_success_eq now db anomalyId "false_positive" notes a
    (by decide) hfind
  refine ⟨?_, ?_, ?_, ?_, ?_⟩
  · rw [hres]
    have hup := (updateSafetyScore_with_profile
      { db with anomalies := db.anomalies.map (fun x =>
          if x.id == anomalyId then resolvedUpdate now "resolved" notes a else x) }
      a.dtid (getSeverityScore a.severity / (-2)) "anomaly_resolved" prof hprof).1
    show ((updateSafetyScore
      { db with anomalies := db.anomalies.map (fun x =>
          if x.id == anomalyId then resolvedUpdate now "resolved" notes a else x) }
      false false false a.dtid (getSeverityScore a.severity / (-2))
      "anomaly_resolved").2).events = _
    rw [hup, hdiv]
  · have hneg := getSeverityScore_neg a.severity
    linarith
  · have h20 : getSeverityScore "high" = -20 := by decide
    rw [h20]
    norm_num
  · rw [hfp]
    rfl
  · rw [hfp]
    rfl

/-- Concrete store for the C4 witness: one active `high` anomaly for a
subject profiled at score 70. -/
def anomHigh : Anomaly :=
  { id := 1, dtid := "t1", anomaly_type := "inactivity", severity := "high",
    description := "inactivity detected", latitude := 1, longitude := 1,
    metadata := [], status := "active", detected_at := 0, resolved_at := none }

/-- Store holding `anomHigh` and its subject profile. -/
def dbHigh : DB :=
  { emptyDB with anomalies := [anomHigh], profiles := [⟨"t1", some 70⟩] }

/-- Witness for C4 at a concrete input: resolving the active `high` anomaly
appends a `+10` `anomaly_resolved` event bringing the score from 70 to 80,
while `false_positive` changes neither events nor profiles. -/
theorem resolve_restores_half_deduction_witness :
    dbHigh.anomalies.filter (fun x => x.id == 1) = [anomHigh] ∧
    (resolveAnomaly 9 dbHigh 1 ⟨some "resolved", none⟩).2.events =
      [⟨"t1", 10, "anomaly_resolved", 80⟩] ∧
    (resolveAnomaly 9 dbHigh 1 ⟨some "false_positive", none⟩).2.events = [] ∧
    (resolveAnomaly 9 dbHigh 1 ⟨some "false_positive", none⟩).2.profiles =
      [⟨"t1", some 70⟩] := by
  have h := resolve_restores_half_deduction 9 dbHigh 1 none anomHigh
    ⟨"t1", some 70⟩ (by decide) (by decide)
  obtain ⟨h1, _, _, h4, h5⟩ := h
  refine ⟨by decide, ?_, ?_, ?_⟩
  · rw [h1]
    have hsev : getSeverityScore anomHigh.severity = -20 := by decide
    rw [hsev]
    norm_num [anomHigh, dbHigh, emptyDB, clampScore]
  · rw [h4]
    rfl
  · rw [h5]
    rfl

/-! ## C5 — resolving a missing anomaly id -/

/-- C5 (code evaluated at the failing input): resolving a non-existent
anomaly id with a valid status answers 500, not the specified 404 — the
`.single()` fetch errors on zero rows and the thrown error lands in the
catch-all — though the store is indeed unchanged.  The controller's own
404 branch is unreachable. -/
theorem resolveAnomaly_missing_id_responds_500 :
    resolveAnomaly 5 emptyDB 99 ⟨some "resolved", none⟩ =
      ({ status := 500, success := false,
         message := some "Failed to resolve anomaly", data := none }, emptyDB) ∧
    (resolveAnomaly 5 emptyDB 99 ⟨some "resolved", none⟩).1.status ≠ 404 := by
  constructor <;> decide

/-! ## C9 — resolution frame and metadata merge -/

/-- C9 (amended): a successful resolution changes only the status,
resolved-at and metadata fields of the record — id, subject, type,
severity, description, position and detection time are untouched — sets
`resolved_at` to the current time, and preserves every prior metadata key
except `resolution_notes`, which is set to the request's notes, overwriting
any prior value stored under that key. -/
theorem resolve_frame_and_metadata_merge (now : Nat) (db : DB) (anomalyId : Nat)
    (tgt : String) (v : String) (a : Anomaly)
    (htgt : (tgt == "resolved" || tgt == "false_positive") = true)
    (hfind : db.anomalies.filter (fun x => x.id == anomalyId) = [a]) :
    ∃ u, (resolveAnomaly now db anomalyId ⟨some tgt, some v⟩).1.data = some u ∧
      u.id = a.id ∧ u.dtid = a.dtid ∧ u.anomaly_type = a.anomaly_type ∧
      u.severity = a.severity ∧ u.description = a.description ∧
      u.latitude = a.latitude ∧ u.longitude = a.longitude ∧
      u.detected_at = a.detected_at ∧
      u.status = tgt ∧ u.resolved_at = some now ∧
      lookupKey u.metadata "resolution_notes" = some v ∧
      (∀ k, k ≠ "resolution_notes" →
        lookupKey u.metadata k = lookupKey a.metadata k) := by
  refine ⟨resolvedUpdate now tgt (some v) a, ?_, rfl, rfl, rfl, rfl, rfl, rfl,
    rfl, rfl, rfl, rfl, ?_, ?_⟩
  · rw [resolveAnomaly_success_eq now db anomalyId tgt (some v) a htgt hfind]
  · exact lookupKey_setKey_same a.metadata "resolution_notes" v
  · intro k hk
    exact lookupKey_setKey_ne a.metadata "resolution_notes" v k hk

/-- Concrete store for the C9 witness: one active anomaly carrying
metadata `zone: z9`. -/
def anomZone : Anomaly :=
  { id := 2, dtid := "t2", anomaly_type := "geofence_breach", severity := "low",
    description := "geofence breach detected", latitude := 3, longitude := 4,
    metadata := [("zone", "z9")], status := "active", detected_at := 1,
    resolved_at := none }

/-- Store holding `anomZone`. -/
def dbZone : DB := { emptyDB with anomalies := [anomZone] }

/-- Witness for C9's amended theorem at a concrete input: resolving
`anomZone` with notes `checked` keeps the `zone` entry and adds the
notes. -/
theorem resolve_frame_and_metadata_merge_witness :
    (("resolved" == "resolved" || "resolved" == "false_positive") = true) ∧
    (∃ u, (resolveAnomaly 4 dbZone 2 ⟨some "resolved", some "checked"⟩).1.data =
        some u ∧
      u.id = 2 ∧ u.status = "resolved" ∧ u.resolved_at = some 4 ∧
      lookupKey u.metadata "resolution_notes" = some "checked" ∧
      lookupKey u.metadata "zone" = some "z9") := by
  have h := resolve_frame_and_metadata_merge 4 dbZone 2 "resolved" "checked"
    anomZone (by decide) (by decide)
  obtain ⟨u, hdata, hid, _, _, _, _, _, _, _, hstatus, hresolved, hnotes, hkeep⟩ := h
  exact ⟨by decide, u, hdata, hid, hstatus, hresolved, hnotes,
    by rw [hkeep "zone" (by decide)]; rfl⟩

/-- Concrete store for the C9 counterexample: the anomaly's prior metadata
already holds the key `resolution_notes`. -/
def anomNotes : Anomaly :=
  { id := 1, dtid := "t1", anomaly_type := "inactivity", severity := "high",
    description := "inactivity detected", latitude := 1, longitude := 1,
    metadata := [("resolution_notes", "old")], status := "active",
    detected_at := 0, resolved_at := none }

/-- Store holding `anomNotes`. -/
def dbNotes : DB := { emptyDB with anomalies := [anomNotes] }

/-- C9 counterexample: when the prior metadata already holds the key
`resolution_notes`, the merge does not preserve that prior key-value pair —
the request notes overwrite it — refuting the claim that the new metadata
contains every key-value pair of the prior metadata unchanged. -/
theorem resolve_overwrites_resolution_notes :
    ("resolution_notes", "old") ∈ anomNotes.metadata ∧
    ((resolveAnomaly 7 dbNotes 1
        ⟨some "false_positive", some "new"⟩).2.anomalies.map Anomaly.metadata =
      [[("resolution_notes", "new")]]) ∧
    ("resolution_notes", "old") ∉ ([("resolution_notes", "new")] : Metadata) := by
  refine ⟨by decide, by decide, by decide⟩

/-! ## C8 — detection pass on an empty location window -/

/-- C8 (amended): when the subject has no recorded pings, the detection
pass answers 200 with `{anomalies: [], status: "no_data"}` — the response
object carries no `detected_now` field — and, for every detector bundle,
runs nothing and leaves the store untouched: no anomaly is created and no
score changes. -/
theorem checkAnomalies_empty_window (dets : Detectors) (now : Nat) (db : DB)
    (dtid : String) (h : db.locations.filter (fun l => l.dtid == dtid) = []) :
    checkAnomalies dets now db dtid =
      ({ status := 200, success := true, message := none,
         data := some { anomalies := [], detected_now := none,
                        status := "no_data" } }, db) := by
  unfold checkAnomalies recentWindow
  rw [h]
  rfl

/-- Witness for C8's amended theorem at a concrete input: the empty store
has no pings for the subject. -/
theorem checkAnomalies_empty_window_witness :
    emptyDB.locations.filter (fun l => l.dtid == "t1") = [] ∧
    checkAnomalies trivialDets 3 emptyDB "t1" =
      ({ status := 200, success := true, message := none,
         data := some { anomalies := [], detected_now := none,
                        status := "no_data" } }, emptyDB) :=
  ⟨rfl, checkAnomalies_empty_window trivialDets 3 emptyDB "t1" rfl⟩

/-- C8 counterexample: at a concrete empty store the `no_data` response has
no `detected_now` field (`none`), refuting the claimed response shape
`{anomalies, detected_now, status}` for this path. -/
theorem checkAnomalies_no_data_omits_detected :
    (checkAnomalies trivialDets 0 emptyDB "t1").1.data =
      some { anomalies := [], detected_now := none, status := "no_data" } ∧
    ¬ ∃ sigs, ((checkAnomalies trivialDets 0 emptyDB "t1").1.data.bind
        (fun gd => gd.detected_now)) = some sigs := by
  constructor
  · rfl
  · rintro ⟨sigs, hs⟩
    rw [show ((checkAnomalies trivialDets 0 emptyDB "t1").1.data.bind
      (fun gd => gd.detected_now)) = none from rfl] at hs
    exact Option.noConfusion hs

/-! ## The geofence breach path -/

/-- Evaluation of `checkGeofence` on a well-formed request whose breach set
is non-empty: the response reports the breach set and the maximal risk
rank, a `geofence_breach` anomaly with the dominant zone's risk level as
severity is inserted, and the ledger is invoked with
`critical ? -30 : -20`. -/
theorem checkGeofence_breach_eq (dist : ℚ → ℚ → ℚ → ℚ → ℚ) (now : Nat)
    (db : DB) (d : String) (lat lon : ℚ) (z : Zone) (rest : List Zone)
    (hd : falsyStr d = false) (hlat : falsyNum (some lat) = false)
    (hlon : falsyNum (some lon) = false)
    (hbreach : breachedZonesOf dist db lat lon = z :: rest) :
    checkGeofence dist now db ⟨d, some lat, some lon⟩ =
      ({ status := 200, success := true, message := none,
         data := some
           { inside := true, breached_zones := z :: rest,
             nearby_zones :=
               ((findNearestZones dist lat lon (activeZonesOf db) 10000).filter
                 (fun p => !((z :: rest).any (fun b => b.id == p.1.id)))).take 5,
             risk_level := maxRiskRank (z :: rest) } },
       (updateSafetyScore
         { db with
           anomalies := db.anomalies ++
             [{ id := db.nextAnomalyId, dtid := d,
                anomaly_type := "geofence_breach",
                severity := (highestRiskZone z rest).risk_level,
                description := "Entered restricted zone: " ++
                  (highestRiskZone z rest).name,
                latitude := lat, longitude := lon,
                metadata := [("zone_id", toString (highestRiskZone z rest).id),
                  ("zone_name", (highestRiskZone z rest).name),
                  ("zone_type", (highestRiskZone z rest).zone_type)],
                status := "active", detected_at := now, resolved_at := none }],
           nextAnomalyId := db.nextAnomalyId + 1 }
         false false false d
         (if (highestRiskZone z rest).risk_level == "critical" then -30 else -20)
         "geofence_breach").2) := by
  unfold checkGeofence
  rw [hd, hlat, hlon]
  simp only [Bool.or_self, Bool.false_or, Bool.false_eq_true, if_false]
  dsimp only [Option.getD]
  rw [hbreach]

/-- A restricted zone with risk level `low`, no active columns. -/
def zoneLow : Zone :=
  { id := 1, name := "Z1", latitude := 1, longitude := 1, radius_meters := 100,
    risk_level := "low", zone_type := "park", is_active := none, active := none }

/-- Store with one low-risk zone and a subject profiled at 100. -/
def dbZoneLow : DB :=
  { emptyDB with zones := [zoneLow], profiles := [⟨"t1", some 100⟩] }

/-! ## C3 — severity table versus the geofence deduction -/

/-- C3 (amended): anomalies created by the detection pass deduct per the
fixed severity table (via `getSeverityScore`); geofence-breach anomalies
created by `POST /geofence/check` instead deduct `-30` when the dominant
zone's risk level is `critical` and `-20` otherwise — so a `low`-risk
breach deducts 20, not 5, and a `medium`-risk breach 20, not 10. -/
theorem geofence_deduction_is_ternary (dist : ℚ → ℚ → ℚ → ℚ → ℚ) (now : Nat)
    (db : DB) (d : String) (lat lon : ℚ) (z : Zone) (rest : List Zone)
    (prof : Profile)
    (hd : falsyStr d = false) (hlat : falsyNum (some lat) = false)
    (hlon : falsyNum (some lon) = false)
    (hbreach : breachedZonesOf dist db lat lon = z :: rest)
    (hprof : db.profiles.filter (fun q => q.dtid == d) = [prof]) :
    ((checkGeofence dist now db ⟨d, some lat, some lon⟩).2.events =
      db.events ++
        [⟨d, if (highestRiskZone z rest).risk_level == "critical" then -30 else -20,
          "geofence_breach",
          clampScore (prof.safety_score.getD 100 +
            if (highestRiskZone z rest).risk_level == "critical" then -30
            else -20)⟩]) ∧
    (∀ (db' : DB) (s : Signal) (latest : LocationPing) (prof' : Profile),
      s.isAnomaly = true →
      db'.anomalies.filter (fun x =>
        x.dtid == d && x.anomaly_type == s.type && x.status == "active") = [] →
      db'.profiles.filter (fun q => q.dtid == d) = [prof'] →
      (storeSignal now d latest db' s).events =
        db'.events ++ [⟨d, getSeverityScore s.severity, s.type,
          clampScore (prof'.safety_score.getD 100 +
            getSeverityScore s.severity)⟩]) := by
  constructor
  · rw [checkGeofence_breach_eq dist now db d lat lon z rest hd hlat hlon hbreach]
    have hup := (updateSafetyScore_with_profile
      { db with
        anomalies := db.anomalies ++
          [{ id := db.nextAnomalyId, dtid := d,
             anomaly_type := "geofence_breach",
             severity := (highestRiskZone z rest).risk_level,
             description := "Entered restricted zone: " ++
               (highestRiskZone z rest).name,
             latitude := lat, longitude := lon,
             metadata := [("zone_id", toString (highestRiskZone z rest).id),
               ("zone_name", (highestRiskZone z rest).name),
               ("zone_type", (highestRiskZone z rest).zone_type)],
             status := "active", detected_at := now, resolved_at := none }],
        nextAnomalyId := db.nextAnomalyId + 1 }
      d (if (highestRiskZone z rest).risk_level == "critical" then -30 else -20)
      "geofence_breach" prof hprof).1
    rw [hup]
  · intro db' s latest prof' hs hnone hprof'
    unfold storeSignal
    rw [hs]
    simp only [if_true]
    rw [hnone]
    dsimp only [singleRow]
    have hup := (updateSafetyScore_with_profile
      { db' with
        anomalies := db'.anomalies ++
          [{ id := db'.nextAnomalyId, dtid := d, anomaly_type := s.type,
             severity := s.severity, description := descriptionOf s.type,
             latitude := latest.latitude, longitude := latest.longitude,
             metadata := s.details, status := "active", detected_at := now,
             resolved_at := none }],
        nextAnomalyId := db'.nextAnomalyId + 1 }
      d (getSeverityScore s.severity) s.type prof' hprof').1
    rw [hup]

/-- C3 counterexample: a breach whose only (hence dominant) zone has risk
level `low` creates a `low`-severity anomaly but deducts `-20`, while the
severity table maps `low` to `-5` — the table is not used by the geofence
path. -/
theorem geofence_low_breach_deducts_twenty :
    ((checkGeofence zeroDist 7 dbZoneLow ⟨"t1", some 1, some 1⟩).2.anomalies.map
      Anomaly.severity = ["low"]) ∧
    ((checkGeofence zeroDist 7 dbZoneLow ⟨"t1", some 1, some 1⟩).2.events.map
      ScoreEvent.delta = [-20]) ∧
    getSeverityScore "low" = -5 ∧
    ((-20 : ℚ) ≠ -5) := by
  refine ⟨by decide, by decide, by decide, by decide⟩

/-- A restricted zone with risk level `critical`. -/
def zoneCrit : Zone :=
  { id := 2, name := "Z2", latitude := 2, longitude := 2, radius_meters := 500,
    risk_level := "critical", zone_type := "military", is_active := some true,
    active := none }

/-- Store with one critical zone and a subject profiled at 100. -/
def dbZoneCrit : DB :=
  { emptyDB with zones := [zoneCrit], profiles := [⟨"t1", some 100⟩] }

/-- Witness for C3's amended theorem at concrete inputs: a critical breach
deducts 30 (score 100 → 70), and a detection-pass signal of severity `low`
deducts 5 per the table. -/
theorem geofence_deduction_is_ternary_witness :
    breachedZonesOf zeroDist dbZoneCrit 1 1 = [zoneCrit] ∧
    ((checkGeofence zeroDist 7 dbZoneCrit ⟨"t1", some 1, some 1⟩).2.events =
      [⟨"t1", -30, "geofence_breach", 70⟩]) ∧
    (storeSignal 7 "t1" ⟨"t1", 1, 1, none, 5⟩
        { emptyDB with profiles := [⟨"t1", some 100⟩] }
        { isAnomaly := true, type := "inactivity", severity := "low",
          details := [] }).events =
      [⟨"t1", -5, "inactivity", 95⟩] := by
  have h := geofence_deduction_is_ternary zeroDist 7 dbZoneCrit "t1" 1 1
    zoneCrit [] ⟨"t1", some 100⟩ rfl rfl rfl (by decide) (by decide)
  refine ⟨by decide, ?_, ?_⟩
  · rw [h.1]
    norm_num [dbZoneCrit, emptyDB, clampScore,
      show (highestRiskZone zoneCrit []).risk_level = "critical" from rfl]
  · have h2 := h.2 { emptyDB with profiles := [⟨"t1", some 100⟩] }
      { isAnomaly := true, type := "inactivity", severity := "low",
        details := [] } ⟨"t1", 1, 1, none, 5⟩ ⟨"t1", some 100⟩ rfl (by decide)
      (by decide)
    rw [h2]
    norm_num [emptyDB, clampScore, getSeverityScore]

/-! ## C1 — the one-active-anomaly-per-(subject, type) invariant -/

/-- Number of active anomalies recorded for a `(subject, type)` pair. -/
def countActive (db : DB) (dtid ty : String) : Nat :=
  (db.anomalies.filter (fun a =>
    a.dtid == dtid && a.anomaly_type == ty && a.status == "active")).length

/-- The core deduplication invariant: at most one active anomaly per
`(subject, type)`. -/
def dedupInvariant (db : DB) : Prop := ∀ dtid ty, countActive db dtid ty ≤ 1

/-- Appending one record adds to a `(subject, type)` count exactly when the
record is an active anomaly of that pair. -/
theorem countActive_append_one (l : List Anomaly) (A : Anomaly) (d t : String) :
    ((l ++ [A]).filter (fun a =>
      a.dtid == d && a.anomaly_type == t && a.status == "active")).length =
    (l.filter (fun a =>
      a.dtid == d && a.anomaly_type == t && a.status == "active")).length +
    (if A.dtid == d && A.anomaly_type == t && A.status == "active" then 1
     else 0) := by
  rw [List.filter_append, List.length_append]
  congr 1
  by_cases hp : (A.dtid == d && A.anomaly_type == t && A.status == "active") = true
  · simp [hp]
  · simp [hp]

/-- One iteration of the store loop preserves the dedup invariant: it
inserts only when no active `(subject, type)` anomaly was found. -/
theorem storeSignal_preserves_dedup (now : Nat) (dtid : String)
    (latest : LocationPing) (db : DB) (s : Signal) (h : dedupInvariant db) :
    dedupInvariant (storeSignal now dtid latest db s) := by
  unfold storeSignal
  by_cases hs : s.isAnomaly = true
  · rw [if_pos hs]
    rcases hL : db.anomalies.filter (fun a =>
        a.dtid == dtid && a.anomaly_type == s.type && a.status == "active") with
      _ | ⟨x, _ | ⟨y, tl⟩⟩
    · rw [hL]
      dsimp only [singleRow]
      intro d t
      unfold countActive
      rw [updateSafetyScore_anomalies]
      dsimp only
      rw [countActive_append_one]
      dsimp only
      by_cases hd : dtid = d
      · subst hd
        by_cases ht : s.type = t
        · subst ht
          rw [hL] at *
          simp
        · have hbt : (s.type == t) = false := by simpa using ht
          have hmain := h dtid t
          unfold countActive at hmain
          simp [hbt]
          omega
      · have hbd : (dtid == d) = false := by simpa using hd
        have hmain := h d t
        unfold countActive at hmain
        simp [hbd]
        omega
    · rw [hL]
      dsimp only [singleRow]
      exact h
    · exfalso
      have hmain := h dtid s.type
      unfold countActive at hmain
      rw [hL] at hmain
      simp at hmain
  · rw [if_neg hs]
    exact h

/-- Folding the store loop over any signal list preserves the invariant. -/
theorem foldl_storeSignal_preserves (now : Nat) (dtid : String)
    (latest : LocationPing) (sigs : List Signal) :
    ∀ db : DB, dedupInvariant db →
      dedupInvariant (sigs.foldl (storeSignal now dtid latest) db) := by
  induction sigs with
  | nil =>
    intro db h
    exact h
  | cons s tl ih =>
    intro db h
    rw [List.foldl_cons]
    exact ih _ (storeSignal_preserves_dedup now dtid latest db s h)

/-- C1 (amended): the detection pass of `GET /anomalies/{subjectId}` checks
for an existing active `(subject, type)` anomaly before creating one and
therefore preserves the at-most-one-active invariant, for every detector
bundle; `POST /geofence/check`, however, creates its `geofence_breach`
anomaly unconditionally whenever the breach set is non-empty, without any
such check, and can therefore produce a second active
`(subject, geofence_breach)` anomaly. -/
theorem checkAnomalies_preserves_dedup (dets : Detectors) (now : Nat) (db : DB)
    (dtid : String) (h : dedupInvariant db) :
    dedupInvariant (checkAnomalies dets now db dtid).2 := by
  unfold checkAnomalies
  cases hw : recentWindow db dtid with
  | nil => exact h
  | cons latest lrest =>
    exact foldl_storeSignal_preserves now dtid latest _ db h

/-- Witness for C1's amended theorem at a concrete input: the empty store
satisfies the invariant and a pass keeps it. -/
theorem checkAnomalies_preserves_dedup_witness :
    dedupInvariant emptyDB ∧
    dedupInvariant (checkAnomalies trivialDets 0 emptyDB "t1").2 := by
  have h0 : dedupInvariant emptyDB := by
    intro d t
    simp [countActive, emptyDB]
  exact ⟨h0, checkAnomalies_preserves_dedup trivialDets 0 emptyDB "t1" h0⟩

/-- An already-recorded active geofence-breach anomaly for subject `t1`. -/
def anomGeo : Anomaly :=
  { id := 5, dtid := "t1", anomaly_type := "geofence_breach", severity := "low",
    description := "geofence breach detected", latitude := 1, longitude := 1,
    metadata := [], status := "active", detected_at := 2, resolved_at := none }

/-- Store satisfying the invariant: one active geofence-breach anomaly and
one low-risk zone that contains every point under `zeroDist`. -/
def dbBreach : DB :=
  { emptyDB with zones := [zoneLow], anomalies := [anomGeo], profiles := [⟨"t1", some 80⟩] }

/-- C1 counterexample: `POST /geofence/check` does not check for an
existing active anomaly — run against a store that satisfies the invariant
and already holds an active `(t1, geofence_breach)` anomaly, it inserts a
second one, violating the invariant. -/
theorem checkGeofence_violates_dedup :
    dedupInvariant dbBreach ∧
    countActive (checkGeofence zeroDist 7 dbBreach ⟨"t1", some 1, some 1⟩).2
      "t1" "geofence_breach" = 2 ∧
    ¬ dedupInvariant (checkGeofence zeroDist 7 dbBreach ⟨"t1", some 1, some 1⟩).2 := by
  have hcount : countActive
      (checkGeofence zeroDist 7 dbBreach ⟨"t1", some 1, some 1⟩).2
      "t1" "geofence_breach" = 2 := by decide
  refine ⟨?_, hcount, ?_⟩
  · intro d t
    have hle := List.length_filter_le (fun a =>
      a.dtid == d && a.anomaly_type == t && a.status == "active")
      dbBreach.anomalies
    have h1 : dbBreach.anomalies.length = 1 := by decide
    unfold countActive
    exact le_trans hle (le_of_eq h1)
  · intro hinv
    have h2 := hinv "t1" "geofence_breach"
    rw [hcount] at h2
    omega

/-! ## C7 — dominant-zone selection -/

/-- Under valid risk levels, the reduce body compares numeric ranks. -/
theorem higherRisk_eq_of_valid (p c : Zone)
    (hp : (riskOrder p.risk_level).isSome = true)
    (hc : (riskOrder c.risk_level).isSome = true) :
    higherRisk p c = if rankOf p < rankOf c then c else p := by
  unfold higherRisk
  cases hps : riskOrder p.risk_level with
  | none => rw [hps] at hp; exact absurd hp (by simp)
  | some rp =>
    cases hcs : riskOrder c.risk_level with
    | none => rw [hcs] at hc; exact absurd hc (by simp)
    | some rc => simp [rankOf, hps, hcs]

/-- The reduce keeps the first encountered zone of maximal rank: either the
initial accumulator is already maximal, or the result splits the list with
strictly smaller ranks before it and no larger rank after it. -/
theorem highestRiskZone_first_max (rest : List Zone) :
    ∀ z : Zone, (∀ w ∈ z :: rest, (riskOrder w.risk_level).isSome = true) →
      (highestRiskZone z rest = z ∧ ∀ w ∈ rest, rankOf w ≤ rankOf z) ∨
      (∃ l₁ l₂, rest = l₁ ++ highestRiskZone z rest :: l₂ ∧
        rankOf z < rankOf (highestRiskZone z rest) ∧
        (∀ w ∈ l₁, rankOf w < rankOf (highestRiskZone z rest)) ∧
        (∀ w ∈ l₂, rankOf w ≤ rankOf (highestRiskZone z rest))) := by
  induction rest with
  | nil =>
    intro z _
    left
    exact ⟨rfl, by simp⟩
  | cons c cs ih =>
    intro z hv
    have hz := hv z (by simp)
    have hc := hv c (by simp)
    have hstep : highestRiskZone z (c :: cs) =
        highestRiskZone (higherRisk z c) cs := rfl
    rw [hstep, higherRisk_eq_of_valid z c hz hc]
    by_cases hlt : rankOf z < rankOf c
    · rw [if_pos hlt]
      have hv' : ∀ w ∈ c :: cs, (riskOrder w.risk_level).isSome = true := by
        intro w hw
        rcases List.mem_cons.mp hw with hwc | hwcs
        · subst hwc; exact hc
        · exact hv w (by simp [hwcs])
      rcases ih c hv' with ⟨heq, hub⟩ | ⟨l₁, l₂, hsplit, hlt2, hl₁, hl₂⟩
      · right
        refine ⟨[], cs, ?_, ?_, by simp, ?_⟩
        · simp [heq]
        · rw [heq]; exact hlt
        · simp only [heq]; exact hub
      · right
        refine ⟨c :: l₁, l₂, ?_, lt_trans hlt hlt2, ?_, hl₂⟩
        · rw [List.cons_append, ← hsplit]
        · intro w hw
          rcases List.mem_cons.mp hw with hwc | hw1
          · subst hwc; exact hlt2
          · exact hl₁ w hw1
    · rw [if_neg hlt]
      have hle : rankOf c ≤ rankOf z := Nat.not_lt.mp hlt
      have hv'' : ∀ w ∈ z :: cs, (riskOrder w.risk_level).isSome = true := by
        intro w hw
        rcases List.mem_cons.mp hw with hwz | hwcs
        · subst hwz; exact hz
        · exact hv w (by simp [hwcs])
      rcases ih z hv'' with ⟨heq, hub⟩ | ⟨l₁, l₂, hsplit, hlt2, hl₁, hl₂⟩
      · left
        refine ⟨heq, ?_⟩
        intro w hw
        rcases List.mem_cons.mp hw with hwc | hwcs
        · subst hwc; exact hle
        · exact hub w hwcs
      · right
        refine ⟨c :: l₁, l₂, ?_, hlt2, ?_, hl₂⟩
        · rw [List.cons_append, ← hsplit]
        · intro w hw
          rcases List.mem_cons.mp hw with hwc | hw1
          · subst hwc; exact lt_of_le_of_lt hle hlt2
          · exact hl₁ w hw1

/-- Folding `max` never exceeds an upper bound of the seed and elements. -/
theorem foldl_max_le (m : Nat) : ∀ (l : List Nat) (a : Nat), a ≤ m →
    (∀ x ∈ l, x ≤ m) → l.foldl max a ≤ m := by
  intro l
  induction l with
  | nil => intro a ha _; exact ha
  | cons c cs ih =>
    intro a ha hub
    rw [List.foldl_cons]
    exact ih (max a c) (max_le ha (hub c (by simp)))
      (fun x hx => hub x (by simp [hx]))

/-- The seed never exceeds a `max`-fold. -/
theorem le_foldl_max_init : ∀ (l : List Nat) (a : Nat), a ≤ l.foldl max a := by
  intro l
  induction l with
  | nil => intro a; exact le_refl a
  | cons c cs ih =>
    intro a
    rw [List.foldl_cons]
    exact le_trans (le_max_left a c) (ih (max a c))

/-- Every element bounds a `max`-fold from below. -/
theorem le_foldl_max_mem (m : Nat) : ∀ (l : List Nat) (a : Nat), m ∈ l →
    m ≤ l.foldl max a := by
  intro l
  induction l with
  | nil => intro a hm; exact absurd hm (List.not_mem_nil m)
  | cons c cs ih =>
    intro a hm
    rw [List.foldl_cons]
    rcases List.mem_cons.mp hm with hmc | hmcs
    · subst hmc
      exact le_trans (le_max_right a m) (le_foldl_max_init cs (max a m))
    · exact ih (max a c) hmcs

/-- A `max`-fold over a list that contains its upper bound equals it. -/
theorem foldl_max_eq (l : List Nat) (m a : Nat) (hm : m ∈ l)
    (hub : ∀ x ∈ l, x ≤ m) (ha : a ≤ m) : l.foldl max a = m :=
  le_antisymm (foldl_max_le m l a ha hub) (le_foldl_max_mem m l a hm)

/-- Under valid risk levels, the `Math.max` fold never degenerates and
computes the `max`-fold of the ranks. -/
theorem maxRiskRank_aux (l : List Zone) :
    ∀ a : Nat, (∀ w ∈ l, (riskOrder w.risk_level).isSome = true) →
      l.foldl
        (fun acc z =>
          match acc, riskOrder z.risk_level with
          | some x, some r => some (max x r)
          | _, _ => none)
        (some a) =
      some ((l.map rankOf).foldl max a) := by
  induction l with
  | nil => intro a _; rfl
  | cons w tl ih =>
    intro a hv
    have hw := hv w (by simp)
    cases hws : riskOrder w.risk_level with
    | none => rw [hws] at hw; exact absurd hw (by simp)
    | some r =>
      have hr : rankOf w = r := by unfold rankOf; rw [hws]; rfl
      rw [List.foldl_cons, List.map_cons, List.foldl_cons, hws, hr]
      exact ih (max a r) (fun x hx => hv x (by simp [hx]))

/-- `maxRiskRank` on valid zones is the `max`-fold of ranks from `0`. -/
theorem maxRiskRank_valid (l : List Zone)
    (hv : ∀ w ∈ l, (riskOrder w.risk_level).isSome = true) :
    maxRiskRank l = some ((l.map rankOf).foldl max 0) := by
  unfold maxRiskRank
  exact maxRiskRank_aux l 0 hv

/-- The anomaly record the breach path inserts for a dominant zone. -/
def breachAnomalyOf (now : Nat) (db : DB) (d : String) (lat lon : ℚ)
    (dom : Zone) : Anomaly :=
  { id := db.nextAnomalyId, dtid := d, anomaly_type := "geofence_breach",
    severity := dom.risk_level,
    description := "Entered restricted zone: " ++ dom.name,
    latitude := lat, longitude := lon,
    metadata := [("zone_id", toString dom.id), ("zone_name", dom.name),
      ("zone_type", dom.zone_type)],
    status := "active", detected_at := now, resolved_at := none }

/-- C7: for every well-formed geofence check over zones with valid risk
levels: when the breach set is non-empty, the reduce picks a breached zone
of maximal rank under low < medium < high < critical keeping the first
encountered on ties — regardless of distances — the created anomaly is a
`geofence_breach` with that zone's risk level as severity, and the
response's `risk_level` is that zone's numeric rank; when no zone is
breached the response's `risk_level` is `0`. -/
theorem geofence_severity_is_max_breached (dist : ℚ → ℚ → ℚ → ℚ → ℚ)
    (now : Nat) (db : DB) (d : String) (lat lon : ℚ)
    (hd : falsyStr d = false) (hlat : falsyNum (some lat) = false)
    (hlon : falsyNum (some lon) = false)
    (hv : ∀ w ∈ breachedZonesOf dist db lat lon,
      (riskOrder w.risk_level).isSome = true) :
    (∀ z rest, breachedZonesOf dist db lat lon = z :: rest →
      highestRiskZone z rest ∈ z :: rest ∧
      (∀ w ∈ z :: rest, rankOf w ≤ rankOf (highestRiskZone z rest)) ∧
      (∃ l₁ l₂, z :: rest = l₁ ++ highestRiskZone z rest :: l₂ ∧
        ∀ w ∈ l₁, rankOf w < rankOf (highestRiskZone z rest)) ∧
      (∃ A, (checkGeofence dist now db ⟨d, some lat, some lon⟩).2.anomalies =
          db.anomalies ++ [A] ∧
        A.anomaly_type = "geofence_breach" ∧
        A.severity = (highestRiskZone z rest).risk_level) ∧
      (∃ gd, (checkGeofence dist now db ⟨d, some lat, some lon⟩).1.data =
          some gd ∧
        gd.risk_level = some (rankOf (highestRiskZone z rest)))) ∧
    (breachedZonesOf dist db lat lon = [] →
      ∃ gd, (checkGeofence dist now db ⟨d, some lat, some lon⟩).1.data =
          some gd ∧
        gd.risk_level = some 0) := by
  constructor
  · intro z rest hbreach
    rw [hbreach] at hv
    have hrun := checkGeofence_breach_eq dist now db d lat lon z rest hd hlat
      hlon hbreach
    have hspec := highestRiskZone_first_max rest z hv
    have hmem : highestRiskZone z rest ∈ z :: rest := by
      rcases hspec with ⟨heq, -⟩ | ⟨l₁, l₂, hsplit, -, -, -⟩
      · rw [heq]; simp
      · have hmem2 : highestRiskZone z rest ∈
            l₁ ++ highestRiskZone z rest :: l₂ := by simp
        rw [← hsplit] at hmem2
        exact List.mem_cons_of_mem z hmem2
    have hub : ∀ w ∈ z :: rest, rankOf w ≤ rankOf (highestRiskZone z rest) := by
      rcases hspec with ⟨heq, hub'⟩ | ⟨l₁, l₂, hsplit, hlt, hl₁, hl₂⟩
      · intro w hw
        rcases List.mem_cons.mp hw with hwz | hwr
        · subst hwz; rw [heq]
        · rw [heq]; exact hub' w hwr
      · intro w hw
        rcases List.mem_cons.mp hw with hwz | hwr
        · subst hwz; exact le_of_lt hlt
        · rw [hsplit] at hwr
          rcases List.mem_append.mp hwr with h1 | h2
          · exact le_of_lt (hl₁ w h1)
          · rcases List.mem_cons.mp h2 with he | h3
            · rw [he]
            · exact hl₂ w h3
    refine ⟨hmem, hub, ?_, ?_, ?_⟩
    · rcases hspec with ⟨heq, -⟩ | ⟨l₁, l₂, hsplit, hlt, hl₁, -⟩
      · exact ⟨[], rest, by rw [heq]; rfl, by simp⟩
      · refine ⟨z :: l₁, l₂, ?_, ?_⟩
        · rw [List.cons_append, ← hsplit]
        · intro w hw
          rcases List.mem_cons.mp hw with hwz | hw1
          · subst hwz; exact hlt
          · exact hl₁ w hw1
    · refine ⟨breachAnomalyOf now db d lat lon (highestRiskZone z rest),
        ?_, rfl, rfl⟩
      rw [hrun, updateSafetyScore_anomalies]
      rfl
    · refine ⟨_, by rw [hrun], ?_⟩
      show maxRiskRank (z :: rest) = some (rankOf (highestRiskZone z rest))
      rw [maxRiskRank_valid (z :: rest) hv]
      congr 1
      apply foldl_max_eq
      · exact List.mem_map_of_mem rankOf hmem
      · intro x hx
        rcases List.mem_map.mp hx with ⟨w, hw, hwx⟩
        rw [← hwx]
        exact hub w hw
      · exact Nat.zero_le _
  · intro hempty
    unfold checkGeofence
    rw [hd, hlat, hlon]
    simp only [Bool.or_self, Bool.false_or, Bool.false_eq_true, if_false]
    dsimp only [Option.getD]
    rw [hempty]
    exact ⟨_, rfl, rfl⟩

/-- Store with both a low-risk and a critical zone, every point inside both
under `zeroDist`. -/
def dbTwoZones : DB :=
  { emptyDB with zones := [zoneLow, zoneCrit], profiles := [⟨"t1", some 100⟩] }

/-- Witness for C7 at a concrete input: with a `low` and a `critical` zone
both breached, the created anomaly's severity is `critical` (rank 4), not
the nearest zone's level. -/
theorem geofence_severity_is_max_breached_witness :
    (∀ w ∈ breachedZonesOf zeroDist dbTwoZones 1 1,
      (riskOrder w.risk_level).isSome = true) ∧
    (∃ A, (checkGeofence zeroDist 7 dbTwoZones ⟨"t1", some 1, some 1⟩).2.anomalies =
        dbTwoZones.anomalies ++ [A] ∧
      A.anomaly_type = "geofence_breach" ∧
      A.severity = (highestRiskZone zoneLow [zoneCrit]).risk_level) ∧
    (highestRiskZone zoneLow [zoneCrit]).risk_level = "critical" ∧
    (∃ gd, (checkGeofence zeroDist 7 dbTwoZones ⟨"t1", some 1, some 1⟩).1.data =
        some gd ∧
      gd.risk_level = some (rankOf (highestRiskZone zoneLow [zoneCrit]))) ∧
    rankOf (highestRiskZone zoneLow [zoneCrit]) = 4 := by
  have h := geofence_severity_is_max_breached zeroDist 7 dbTwoZones "t1" 1 1
    rfl rfl rfl (by decide)
  have h1 := h.1 zoneLow [zoneCrit] (by decide)
  exact ⟨by decide, h1.2.2.2.1, by decide, h1.2.2.2.2, by decide⟩

end MahaDevs
